import Mathlib

/-!
Shallow embedding of the telegraf zipkin input plugin
(`plugins/inputs/zipkin/zipkin.go`): the service lifecycle (Start,
Listen, Stop), the Gather no-op, the registered factory defaults, and a
small interleaving model of the Start-launched worker goroutine against
a concurrent Stop call.

Pointer-typed fields of the Go struct become `Option`; calls into
external collaborators (the accumulator, `ListenAndServe`,
`Server.Shutdown`) are represented by their observable outcomes, passed
in as parameters or recorded as events.
-/

/-- DefaultPort is the default port zipkin listens on (source constant). -/
def DefaultPort : Int := 9411

/-- DefaultRoute is the default route zipkin uses (source constant). -/
def DefaultRoute : String := "/api/v1/spans"

/-- DefaultShutdownTimeout is the max amount of time telegraf will wait for the
plugin to shut down: the untyped constant 5 in the source, i.e. 5 time-units
when handed to context.WithTimeout. -/
def DefaultShutdownTimeout : Nat := 5

/-- A Handler registers itself with a router; Register returns an optional
error. `spanHandler` stands for the default SpanHandler implementation;
`custom` stands for an arbitrary other implementation of the Handler
interface, carrying the error its Register call yields on a fresh router. -/
inductive Handler where
  | spanHandler (path : String)
  | custom (name : String) (registerErr : Option String)
deriving DecidableEq, Repr

/-- Outcome of Handler.Register on a fresh router together with the converter
recorder. The default span handler registers its single route on a fresh
router without conflict; a custom handler may fail (e.g. route conflict) with
the error it carries. -/
def registerResult : Handler → Option String
  | .spanHandler _ => none
  | .custom _ e => e

/-- Modelled from the spec: NewSpanHandler lives in the zipkin package outside
the provided source file; it constructs the default Handler bound to the
configured route path. -/
def NewSpanHandler (path : String) : Handler := .spanHandler path

/-- An http.Server, reduced to the one field the source sets and reads: the
bind address. -/
structure Server where
  addr : String
deriving DecidableEq, Repr

/-- Observable calls on the telegraf.Accumulator. -/
inductive AccEvent where
  | addError (msg : String)
  | addMetric (name : String)
deriving DecidableEq, Repr

/-- Zipkin mirrors the source struct: the configuration fields plus the
management fields for the concurrent http server. handler, server and
waitGroup are pointers in Go, hence `Option` here; the wait group value
carries no data (its counter lives in the scheduler model below). -/
structure Zipkin where
  ServiceAddress : String
  Port : Int
  Path : String
  handler : Option Handler
  server : Option Server
  waitGroup : Option Unit
deriving DecidableEq, Repr

/-- strconv.Itoa as applied to the configured port. -/
def Itoa (n : Int) : String := toString n

/-- Gather is empty for the zipkin plugin; all gathering is done through the
separate goroutine launched in Start. It returns nil and touches nothing. -/
def Gather (z : Zipkin) (acc : List AccEvent) : Option String × Zipkin × List AccEvent :=
  (none, z, acc)

/-- Result of the synchronous part of Start: the updated receiver and the
returned error. -/
structure StartResult where
  z : Zipkin
  err : Option String
deriving DecidableEq, Repr

/-- Start: if no handler is configured, install NewSpanHandler on the
configured path; store a fresh wait group; launch the worker goroutine (the
launched computation is Listen below, and the goroutine/Stop interleaving is
sysStep below); return nil immediately. -/
def Start (z : Zipkin) : StartResult :=
  let z1 :=
    match z.handler with
    | none => { z with handler := some (NewSpanHandler z.Path) }
    | some _ => z
  { z := { z1 with waitGroup := some () }, err := none }

/-- What Listen leaves behind: the updated receiver, the accumulator events,
and whether ListenAndServe was invoked. -/
structure ListenResult where
  z : Zipkin
  acc : List AccEvent
  served : Bool
deriving DecidableEq, Repr

/-- Listen either completes with a ListenResult or panics on a nil handler
dereference (it is only ever reached through Start, which sets the handler). -/
inductive ListenOutcome where
  | panicNilHandler
  | done (r : ListenResult)
deriving DecidableEq, Repr

/-- Listen: build a fresh router and line-protocol converter, call
handler.Register and discard its result (as the source line does), construct
the server at ":" ++ Port if one does not already exist, then call
ListenAndServe; a non-nil serve error is reported once via acc.AddError.
`serveErr` is the value ListenAndServe eventually returns. -/
def Listen (z : Zipkin) (acc : List AccEvent) (serveErr : Option String) : ListenOutcome :=
  match z.handler with
  | none => .panicNilHandler
  | some h =>
    let _ := registerResult h
    let z1 :=
      match z.server with
      | none => { z with server := some { addr := ":" ++ Itoa z.Port } }
      | some _ => z
    match serveErr with
    | some e =>
        .done { z := z1, acc := acc ++ [.addError ("E! Error listening: " ++ e)], served := true }
    | none => .done { z := z1, acc := acc, served := true }

/-- Whether ListenAndServe was reached. -/
def ListenOutcome.didServe : ListenOutcome → Bool
  | .panicNilHandler => false
  | .done r => r.served

/-- Accumulator events after Listen. -/
def ListenOutcome.accOut : ListenOutcome → List AccEvent
  | .panicNilHandler => []
  | .done r => r.acc

/-- The receiver's server field after Listen. -/
def ListenOutcome.serverOut : ListenOutcome → Option Server
  | .panicNilHandler => none
  | .done r => r.z.server

/-- The context produced by context.WithTimeout, reduced to its absolute
deadline. -/
structure Ctx where
  deadline : Nat
deriving DecidableEq, Repr

/-- context.WithTimeout(context.Background(), DefaultShutdownTimeout) taken at
absolute time `now`. -/
def stopCtx (now : Nat) : Ctx := { deadline := now + DefaultShutdownTimeout }

/-- Modelled from the spec: http.Server.Shutdown performs the bounded-time
graceful shutdown — it returns nil when in-flight requests drain by the
context deadline and the deadline error otherwise; in either case it
returns. `inflightDone` is the absolute time at which in-flight requests
would be drained. -/
def Shutdown (ctx : Ctx) (inflightDone : Nat) : Option String :=
  if inflightDone ≤ ctx.deadline then none else some "context deadline exceeded"

/-- Outcome of a Stop call. -/
inductive StopOutcome where
  | panicNilPointer
  | returned (shutdownErr : Option String)
deriving DecidableEq, Repr

/-- Stop as written in the source: build the timeout context, defer cancel,
defer waitGroup.Wait, call server.Shutdown. With a nil server the Shutdown
call dereferences a nil pointer, and with a nil waitGroup the deferred Wait
does; either way the method panics. Otherwise it returns after Shutdown,
whose error the source discards (recorded here for observability). -/
def Stop (z : Zipkin) (now inflightDone : Nat) : StopOutcome :=
  let ctx := stopCtx now
  match z.server, z.waitGroup with
  | some _, some _ => .returned (Shutdown ctx inflightDone)
  | _, _ => .panicNilPointer

/-- Program counter of the worker goroutine launched by Start: it runs
wg.Add(1), then Listen's serve loop, then the deferred wg.Done(). -/
inductive WorkerPC where
  | atAdd
  | atServe
  | atDone
  | exited
deriving DecidableEq, Repr

/-- Program counter of the Stop call: server.Shutdown, then the deferred
waitGroup.Wait, then return. -/
inductive StopPC where
  | atShutdown
  | atWait
  | returned
deriving DecidableEq, Repr

/-- Shared state of the worker goroutine and a concurrent Stop call. -/
structure SysState where
  wgCounter : Nat
  worker : WorkerPC
  stopper : StopPC
  shutdownRequested : Bool
deriving DecidableEq, Repr

/-- State immediately after Start has returned and Stop has been invoked: the
goroutine is about to execute wg.Add(1) (the Add is inside the goroutine in
the source), and the Stop call is about to execute server.Shutdown. -/
def sysInit : SysState :=
  { wgCounter := 0, worker := .atAdd, stopper := .atShutdown, shutdownRequested := false }

/-- A scheduling choice: run the next enabled step of the worker goroutine or
of the Stop call. -/
inductive SchedAct where
  | workerStep
  | stopStep
deriving DecidableEq, Repr

/-- One interleaving step. wg.Wait blocks while the counter is positive (a
no-op step models a blocked retry); ListenAndServe returns once the server
has been shut down. -/
def sysStep (s : SysState) : SchedAct → SysState
  | .workerStep =>
    match s.worker with
    | .atAdd => { s with wgCounter := s.wgCounter + 1, worker := .atServe }
    | .atServe => if s.shutdownRequested then { s with worker := .atDone } else s
    | .atDone => { s with wgCounter := s.wgCounter - 1, worker := .exited }
    | .exited => s
  | .stopStep =>
    match s.stopper with
    | .atShutdown => { s with shutdownRequested := true, stopper := .atWait }
    | .atWait => if s.wgCounter = 0 then { s with stopper := .returned } else s
    | .returned => s

/-- Run a finite schedule. -/
def sysRun (s : SysState) : List SchedAct → SysState
  | [] => s
  | a :: rest => sysRun (sysStep s a) rest

/-- The Zipkin value built by the factory the init function registers at the
plugin extension point: only Path and Port are set; the rest are Go zero
values. -/
def newZipkin : Zipkin :=
  { ServiceAddress := "", Port := DefaultPort, Path := DefaultRoute,
    handler := none, server := none, waitGroup := none }

/-- Count of AddError events in an accumulator trace. -/
def countAddErrors (acc : List AccEvent) : Nat :=
  (acc.filter fun ev =>
    match ev with
    | .addError _ => true
    | .addMetric _ => false).length

/-- A custom handler whose Register fails with a route conflict. -/
def conflictHandler : Handler := .custom "conflicting" (some "route conflict")

/-- A Zipkin value configured with the failing handler. -/
def zBadRegister : Zipkin := { newZipkin with handler := some conflictHandler }

/-- A Zipkin value with a configured ServiceAddress and the default handler. -/
def zWithAddress : Zipkin :=
  { newZipkin with
    ServiceAddress := "127.0.0.1"
    handler := some (NewSpanHandler DefaultRoute) }

/-- A Zipkin value whose handler was configured before Start. -/
def zPreconfigured : Zipkin := { newZipkin with handler := some (Handler.custom "mine" none) }

/-- A Zipkin value holding an already-constructed server. -/
def zWithServer : Zipkin :=
  { newZipkin with
    handler := some (NewSpanHandler DefaultRoute)
    server := some { addr := "custom:1" } }

/-- A Zipkin value as it stands after a completed Start and Listen. -/
def zStarted : Zipkin :=
  { newZipkin with
    handler := some (NewSpanHandler DefaultRoute)
    server := some { addr := ":9411" }
    waitGroup := some () }

/-- C1: Stop called on a Zipkin value that was never started (nil waitGroup
and nil server, as the factory builds it) dereferences the nil server in
server.Shutdown and the nil wait group in the deferred waitGroup.Wait, so it
panics rather than returning as a no-op or with a defined error. -/
theorem stop_before_start_panics :
    newZipkin.waitGroup = none ∧ newZipkin.server = none ∧
    Stop newZipkin 0 0 = StopOutcome.panicNilPointer :=
  ⟨rfl, rfl, rfl⟩

/-- C2: a failed Register is neither reported nor fatal: Listen discards the
error returned by handler.Register, still proceeds to ListenAndServe
(didServe = true), and appends no accumulator event for the failure. -/
theorem register_failure_not_fatal :
    registerResult conflictHandler = some "route conflict" ∧
    (Listen zBadRegister [] none).didServe = true ∧
    (Listen zBadRegister [] none).accOut = [] :=
  ⟨rfl, rfl, rfl⟩

/-- C5: under the schedule in which the Stop call runs both of its steps
before the worker goroutine executes wg.Add(1), Wait observes a zero counter
and Stop returns while the worker has not exited — it has not even begun
serving, and it keeps running (its next step reaches the serve loop) after
Stop has returned, so the synchronous join guarantee fails. -/
theorem stop_can_return_before_worker_exits :
    (sysRun sysInit [SchedAct.stopStep, SchedAct.stopStep]).stopper = StopPC.returned ∧
    (sysRun sysInit [SchedAct.stopStep, SchedAct.stopStep]).worker = WorkerPC.atAdd ∧
    (sysRun sysInit [SchedAct.stopStep, SchedAct.stopStep]).worker ≠ WorkerPC.exited ∧
    (sysRun sysInit [SchedAct.stopStep, SchedAct.stopStep, SchedAct.workerStep]).worker
      = WorkerPC.atServe := by
  refine ⟨rfl, rfl, ?_, rfl⟩
  decide

/-- C9: the factory registered at the plugin extension point constructs a
Zipkin value defaulting to port 9411 and route path "/api/v1/spans", with no
handler, server or wait group yet. -/
theorem factory_defaults :
    newZipkin.Port = 9411 ∧ newZipkin.Path = "/api/v1/spans" ∧
    newZipkin.handler = none ∧ newZipkin.server = none ∧ newZipkin.waitGroup = none := by
  refine ⟨rfl, ?_, rfl, rfl, rfl⟩
  decide

/-- C10: Gather is a pure no-op: it returns nil, writes nothing to the
accumulator, and leaves the Zipkin value unchanged. -/
theorem gather_noop (z : Zipkin) (acc : List AccEvent) :
    Gather z acc = (none, z, acc) := rfl

/-- C3 counterexample: with ServiceAddress "127.0.0.1" and Port 9411 the
worker binds ":9411", not "127.0.0.1:9411" — the listen address is not formed
from the ServiceAddress field. -/
theorem listen_addr_ignores_service_address :
    zWithAddress.ServiceAddress = "127.0.0.1" ∧
    (Listen zWithAddress [] (some "x")).serverOut = some { addr := ":9411" } ∧
    (":9411" : String) ≠ "127.0.0.1:9411" := by
  refine ⟨rfl, rfl, ?_⟩
  decide

/-- C3 amended: the server address is formed from the port alone, as
":" ++ Itoa Port; the ServiceAddress field is ignored. -/
theorem listen_addr_is_port_only (z : Zipkin) (h : Handler) (acc : List AccEvent)
    (e : Option String) (hh : z.handler = some h) (hs : z.server = none) :
    (Listen z acc e).serverOut = some { addr := ":" ++ Itoa z.Port } := by
  cases e <;> simp [Listen, hh, hs, ListenOutcome.serverOut]

/-- Witness for the amended C3 at a concrete Zipkin value. -/
theorem listen_addr_is_port_only_witness :
    (Listen zWithAddress [] (some "x")).serverOut
      = some { addr := ":" ++ Itoa zWithAddress.Port } :=
  listen_addr_is_port_only zWithAddress (NewSpanHandler DefaultRoute) [] (some "x") rfl rfl

/-- C4: Start returns nil without serving (it leaves the server field
untouched and performs no accumulator call), and when the worker's
ListenAndServe later fails, the failure is reported exactly once through
AddError. -/
theorem start_fire_and_forget (z : Zipkin) (acc : List AccEvent) (e : String) :
    (Start z).err = none ∧ (Start z).z.server = z.server ∧
    countAddErrors ((Listen (Start z).z acc (some e)).accOut) = countAddErrors acc + 1 := by
  refine ⟨rfl, ?_, ?_⟩
  · cases hz : z.handler <;> simp [Start, hz]
  · cases hz : z.handler <;>
      simp [Start, Listen, hz, ListenOutcome.accOut, countAddErrors, List.filter_append]

/-- C6: Stop performs the graceful shutdown under a context whose deadline is
the stop time plus DefaultShutdownTimeout (5 time-units), and on a started
Zipkin value Stop returns after Shutdown no matter when in-flight requests
would drain. -/
theorem stop_shutdown_bounded (z : Zipkin) (now inflightDone : Nat)
    (hs : z.server.isSome = true) (hw : z.waitGroup.isSome = true) :
    (stopCtx now).deadline = now + DefaultShutdownTimeout ∧
    Stop z now inflightDone = StopOutcome.returned (Shutdown (stopCtx now) inflightDone) := by
  refine ⟨rfl, ?_⟩
  obtain ⟨s, hs⟩ := Option.isSome_iff_exists.mp hs
  obtain ⟨w, hw⟩ := Option.isSome_iff_exists.mp hw
  simp [Stop, hs, hw]

/-- Witness for C6 at a started Zipkin value, with in-flight work draining
only at time 7, past the deadline 0 + 5 — Stop still returns. -/
theorem stop_shutdown_bounded_witness :
    (stopCtx 0).deadline = 0 + DefaultShutdownTimeout ∧
    Stop zStarted 0 7 = StopOutcome.returned (Shutdown (stopCtx 0) 7) :=
  stop_shutdown_bounded zStarted 0 7 rfl rfl

/-- C7: Start installs NewSpanHandler on the configured path when no handler
is configured, and leaves an already-configured handler unchanged. -/
theorem start_handler_defaulting (z : Zipkin) :
    (z.handler = none → (Start z).z.handler = some (NewSpanHandler z.Path)) ∧
    (∀ h, z.handler = some h → (Start z).z.handler = some h) := by
  constructor
  · intro hn
    simp [Start, hn]
  · intro h hh
    simp [Start, hh]

/-- Witness for C7: the defaulting case on the factory value and the
preservation case on a preconfigured value. -/
theorem start_handler_defaulting_witness :
    (Start newZipkin).z.handler = some (NewSpanHandler newZipkin.Path) ∧
    (Start zPreconfigured).z.handler = some (Handler.custom "mine" none) :=
  ⟨(start_handler_defaulting newZipkin).1 rfl,
   (start_handler_defaulting zPreconfigured).2 (Handler.custom "mine" none) rfl⟩

/-- C8: the worker constructs the http server only when the server field is
nil, and reuses an existing server unchanged (field and address are not
overwritten). -/
theorem listen_server_reuse (z : Zipkin) (h : Handler) (acc : List AccEvent)
    (e : Option String) (hh : z.handler = some h) :
    (z.server = none → (Listen z acc e).serverOut = some { addr := ":" ++ Itoa z.Port }) ∧
    (∀ s, z.server = some s → (Listen z acc e).serverOut = some s) := by
  constructor
  · intro hs
    cases e <;> simp [Listen, hh, hs, ListenOutcome.serverOut]
  · intro s hs
    cases e <;> simp [Listen, hh, hs, ListenOutcome.serverOut]

/-- Witness for C8: an already-constructed server at "custom:1" is kept
unchanged by Listen. -/
theorem listen_server_reuse_witness :
    (Listen zWithServer [] none).serverOut = some { addr := "custom:1" } :=
  (listen_server_reuse zWithServer (NewSpanHandler DefaultRoute) [] none rfl).2
    { addr := "custom:1" } rfl
